import Mathlib

/-!
Shallow embedding of `src/backend/commands/operatorcmds.c`: operator
definition (`DefineOperator`), alteration (`AlterOperator`) and removal
(`RemoveOperatorById`), together with the two estimator validators
(`ValidateRestrictionEstimator`, `ValidateJoinEstimator`).

Catalog lookups, type resolution and privilege checks are external
collaborators; they are modelled as an environment record of pure
functions.  Errors are modelled by an explicit error type carrying the
error class and the formatted message, and each entry point returns an
`Except` value.
-/

/-- Object identifiers, as in the C source (`Oid`). -/
abbrev Oid := Nat

/-- The invalid OID constant (`InvalidOid`). -/
def invalidOid : Oid := 0

/-- The `OidIsValid` macro: an OID is valid iff it is nonzero. -/
def OidIsValid (o : Oid) : Bool := o ≠ 0

/-- Type OID of `bool` (`BOOLOID`). -/
def BOOLOID : Oid := 16

/-- Type OID of `int2` (`INT2OID`). -/
def INT2OID : Oid := 21

/-- Type OID of `int4` (`INT4OID`). -/
def INT4OID : Oid := 23

/-- Type OID of `oid` (`OIDOID`). -/
def OIDOID : Oid := 26

/-- Type OID of `float8` (`FLOAT8OID`). -/
def FLOAT8OID : Oid := 701

/-- Type OID of `internal` (`INTERNALOID`). -/
def INTERNALOID : Oid := 2281

/-- A parsed type name, as produced by the statement parser (`TypeName`):
a possibly qualified name plus the `setof` marker. -/
structure PgTypeName where
  names : List String
  setof : Bool
  deriving Repr, DecidableEq

/-- The payload of a `DefElem` argument node, as far as this core
inspects it: a type name, a qualified name, a boolean node, or a numeric
node. -/
inductive DefValue where
  | typeName (t : PgTypeName)
  | qualName (q : List String)
  | boolean (b : Bool)
  | numeric (n : Int)
  deriving Repr, DecidableEq

/-- A `DefElem`: an attribute key together with an optional argument. -/
structure DefElem where
  defname : String
  arg : Option DefValue
  deriving Repr, DecidableEq

/-- Error classes raised by this core, carrying the formatted message
parts.  `invalidFunctionDefinition` corresponds to
`ERRCODE_INVALID_FUNCTION_DEFINITION` and carries the optional
`errdetail`; `syntaxError` to `ERRCODE_SYNTAX_ERROR`;
`invalidObjectDefinition` to `ERRCODE_INVALID_OBJECT_DEFINITION`;
`ambiguousFunction` to `ERRCODE_AMBIGUOUS_FUNCTION`;
`undefinedFunction` to the error raised by `LookupFuncName` with
`missing_ok = false`, carrying the looked-up name and the argument-type
signature mentioned in the message; `aclFailure` to `aclcheck_error`;
`internalError` to `elog(ERROR, ...)`. -/
inductive PgError where
  | invalidFunctionDefinition (msg : String) (detail : Option String)
  | invalidObjectDefinition (msg : String)
  | syntaxError (msg : String)
  | ambiguousFunction (msg : String)
  | undefinedFunction (name : List String) (argTypes : List Oid)
  | undefinedObject (name : List String)
  | aclFailure (msg : String)
  | internalError (msg : String)
  deriving Repr, DecidableEq

/-- `NameListToString`: render a qualified name. -/
def NameListToString (names : List String) : String :=
  String.intercalate "." names

/-- The external catalog collaborators used by definition and by the
estimator validators: exact-signature function lookup, function return
type, type-name resolution, and the privilege checks. -/
structure Catalog where
  lookupFunc : List String → List Oid → Option Oid
  funcRettype : Oid → Oid
  resolveType : PgTypeName → Option Oid
  aclNamespaceCreate : Oid → Bool
  aclTypeUsage : Oid → Bool
  aclFuncExecute : Oid → Bool
  creationNamespace : List String → Oid × String

/-- `LookupFuncName(name, nargs, argtypes, missing_ok)`: exact-signature
lookup; with `missing_ok` it returns `InvalidOid` when nothing matches,
otherwise it raises `UndefinedFunction` naming the requested
signature. -/
def LookupFuncName (env : Catalog) (name : List String) (argTypes : List Oid)
    (missingOk : Bool) : Except PgError Oid :=
  match env.lookupFunc name argTypes with
  | some f => .ok f
  | none =>
    if missingOk then .ok invalidOid
    else .error (.undefinedFunction name argTypes)

/-- Raise `e` unless `ok` holds; mirrors the C pattern of a check
followed by `ereport(ERROR, ...)`. -/
def errUnless (ok : Bool) (e : PgError) : Except PgError Unit :=
  if ok then .ok () else .error e

/-- Modelled from the spec: `defGetBoolean` (external `define.c`
collaborator) interprets a `DefElem` argument as a boolean; an absent
argument means `true`; anything not boolean-like is a fatal error. -/
def defGetBoolean (defel : DefElem) : Except PgError Bool :=
  match defel.arg with
  | none => .ok true
  | some (.boolean b) => .ok b
  | some (.numeric 0) => .ok false
  | some (.numeric 1) => .ok true
  | some _ =>
      .error (.syntaxError (defel.defname ++ " requires a Boolean value"))

/-- Modelled from the spec: `defGetQualifiedName` (external `define.c`
collaborator) interprets a `DefElem` argument as a possibly qualified
name; a non-name argument is a fatal error. -/
def defGetQualifiedName (defel : DefElem) : Except PgError (List String) :=
  match defel.arg with
  | some (.typeName t) => .ok t.names
  | some (.qualName q) => .ok q
  | _ =>
      .error (.syntaxError ( "argument of " ++ defel.defname ++ " must be a name"))

/-- Modelled from the spec: `defGetTypeName` (external `define.c`
collaborator) interprets a `DefElem` argument as a type name. -/
def defGetTypeName (defel : DefElem) : Except PgError PgTypeName :=
  match defel.arg with
  | some (.typeName t) => .ok t
  | _ =>
      .error (.syntaxError ( "argument of " ++ defel.defname ++ " must be a type name"))

/-- `typenameTypeId`: resolve a type name to a type OID, failing with
`UndefinedObject` when the name is unknown. -/
def typenameTypeId (env : Catalog) (t : PgTypeName) : Except PgError Oid :=
  match env.resolveType t with
  | some oid => .ok oid
  | none => .error (.undefinedObject t.names)

/-- Argument-type signature required of a restriction estimator:
`(internal, oid, internal, int4)`, from `ValidateRestrictionEstimator`. -/
def restrictionEstimatorArgTypes : List Oid :=
  [INTERNALOID, OIDOID, INTERNALOID, INT4OID]

/-- Argument-type signature of the current (5-parameter) join estimator
form: `(internal, oid, internal, int2, internal)`, from
`ValidateJoinEstimator`; the legacy 4-parameter form is its prefix. -/
def joinEstimatorArgTypes : List Oid :=
  [INTERNALOID, OIDOID, INTERNALOID, INT2OID, INTERNALOID]

/-- `ValidateRestrictionEstimator`: look up a restriction estimator by
name against the fixed 4-parameter signature, then check that it
returns `float8` and that the caller may execute it. -/
def ValidateRestrictionEstimator (env : Catalog) (restrictionName : List String) :
    Except PgError Oid :=
  match LookupFuncName env restrictionName restrictionEstimatorArgTypes false with
  | .error e => .error e
  | .ok restrictionOid =>
    if env.funcRettype restrictionOid ≠ FLOAT8OID then
      .error (.invalidObjectDefinition ( "restriction estimator function " ++
        NameListToString restrictionName ++ " must return type float8"))
    else if ¬ env.aclFuncExecute restrictionOid then
      .error (.aclFailure (NameListToString restrictionName))
    else
      .ok restrictionOid

/-- `ValidateJoinEstimator`: try both the 5-parameter and the legacy
4-parameter signature; complain about ambiguity when both match, fall
back to the 4-parameter match when only it exists, and when neither
matches raise `UndefinedFunction` naming the 5-parameter signature.
Then check the `float8` return type and execute privilege. -/
def ValidateJoinEstimator (env : Catalog) (joinName : List String) :
    Except PgError Oid :=
  match LookupFuncName env joinName joinEstimatorArgTypes true with
  | .error e => .error e
  | .ok joinOid =>
    match LookupFuncName env joinName (joinEstimatorArgTypes.take 4) true with
    | .error e => .error e
    | .ok joinOid2 =>
      let resolved : Except PgError Oid :=
        if OidIsValid joinOid then
          if OidIsValid joinOid2 then
            .error (.ambiguousFunction ( "join estimator function " ++
              NameListToString joinName ++ " has multiple matches"))
          else .ok joinOid
        else
          if OidIsValid joinOid2 then .ok joinOid2
          else LookupFuncName env joinName joinEstimatorArgTypes false
      match resolved with
      | .error e => .error e
      | .ok joinOid =>
        if env.funcRettype joinOid ≠ FLOAT8OID then
          .error (.invalidObjectDefinition ( "join estimator function " ++
            NameListToString joinName ++ " must return type float8"))
        else if ¬ env.aclFuncExecute joinOid then
          .error (.aclFailure (NameListToString joinName))
        else
          .ok joinOid

/-- The attributes accumulated by `DefineOperator`'s loop over the
parameter list (the local variables of lines 70-87 of the source). -/
structure OprAttrs where
  canMerge : Bool := false
  canHash : Bool := false
  functionName : List String := []
  typeName1 : Option PgTypeName := none
  typeName2 : Option PgTypeName := none
  commutatorName : List String := []
  negatorName : List String := []
  restrictionName : List String := []
  joinName : List String := []
  deriving Repr, DecidableEq

/-- One iteration of `DefineOperator`'s `foreach` over the parameter
list: dispatch on the attribute key; the four legacy sort/compare keys
set `canMerge` unconditionally; an unrecognized key only appends a
warning. -/
def applyOprDef (acc : OprAttrs × List String) (defel : DefElem) :
    Except PgError (OprAttrs × List String) :=
  let s := acc.1
  let warns := acc.2
  if defel.defname = "leftarg" then
    match defGetTypeName defel with
    | .error e => .error e
    | .ok t =>
      if t.setof then
        .error (.invalidFunctionDefinition "SETOF type not allowed for operator argument" none)
      else
        .ok ({ s with typeName1 := some t }, warns)
  else if defel.defname = "rightarg" then
    match defGetTypeName defel with
    | .error e => .error e
    | .ok t =>
      if t.setof then
        .error (.invalidFunctionDefinition "SETOF type not allowed for operator argument" none)
      else
        .ok ({ s with typeName2 := some t }, warns)
  else if defel.defname = "function" then
    match defGetQualifiedName defel with
    | .error e => .error e
    | .ok q => .ok ({ s with functionName := q }, warns)
  else if defel.defname = "procedure" then
    match defGetQualifiedName defel with
    | .error e => .error e
    | .ok q => .ok ({ s with functionName := q }, warns)
  else if defel.defname = "commutator" then
    match defGetQualifiedName defel with
    | .error e => .error e
    | .ok q => .ok ({ s with commutatorName := q }, warns)
  else if defel.defname = "negator" then
    match defGetQualifiedName defel with
    | .error e => .error e
    | .ok q => .ok ({ s with negatorName := q }, warns)
  else if defel.defname = "restrict" then
    match defGetQualifiedName defel with
    | .error e => .error e
    | .ok q => .ok ({ s with restrictionName := q }, warns)
  else if defel.defname = "join" then
    match defGetQualifiedName defel with
    | .error e => .error e
    | .ok q => .ok ({ s with joinName := q }, warns)
  else if defel.defname = "hashes" then
    match defGetBoolean defel with
    | .error e => .error e
    | .ok b => .ok ({ s with canHash := b }, warns)
  else if defel.defname = "merges" then
    match defGetBoolean defel with
    | .error e => .error e
    | .ok b => .ok ({ s with canMerge := b }, warns)
  else if defel.defname = "sort1" then
    .ok ({ s with canMerge := true }, warns)
  else if defel.defname = "sort2" then
    .ok ({ s with canMerge := true }, warns)
  else if defel.defname = "ltcmp" then
    .ok ({ s with canMerge := true }, warns)
  else if defel.defname = "gtcmp" then
    .ok ({ s with canMerge := true }, warns)
  else
    .ok (s, warns ++ [ "operator attribute \"" ++ defel.defname ++ "\" not recognized"])

/-- The whole definition-list fold of `DefineOperator` (lines 101-155):
left fold of `applyOprDef`, stopping at the first error. -/
def foldOprDefs : List DefElem → (OprAttrs × List String) →
    Except PgError (OprAttrs × List String)
  | [], acc => .ok acc
  | d :: ds, acc =>
    match applyOprDef acc d with
    | .ok acc2 => foldOprDefs ds acc2
    | .error e => .error e

/-- The argument-type array handed to the operator-function lookup
(lines 205-220 of the source): the right type alone when the left is
absent, the left type alone when the right is absent, otherwise both in
order; `nargs` is its length. -/
def operArgTypes (typeId1 typeId2 : Oid) : List Oid :=
  if !OidIsValid typeId1 then [typeId2]
  else if !OidIsValid typeId2 then [typeId1]
  else [typeId1, typeId2]

/-- The fully resolved specification handed to the external
`OperatorCreate` collaborator (lines 253-264 of the source). -/
structure OperatorCreateArgs where
  oprName : String
  oprNamespace : Oid
  leftTypeId : Oid
  rightTypeId : Oid
  functionOid : Oid
  commutatorName : List String
  negatorName : List String
  restrictionOid : Oid
  joinOid : Oid
  canMerge : Bool
  canHash : Bool
  deriving Repr, DecidableEq

/-- Resolve an optional operand type name (lines 165-169): an absent
name stays `InvalidOid`. -/
def resolveOperandType (env : Catalog) : Option PgTypeName → Except PgError Oid
  | some t => typenameTypeId env t
  | none => .ok invalidOid

/-- `DefineOperator`: namespace resolution and create privilege, the
attribute fold, the required-function and operand-type checks (with the
distinct postfix diagnostic), type privilege checks, the dual-arity
function lookup, function/return-type privilege checks, optional
estimator validation, and finally the `OperatorCreate` argument record,
returned together with the accumulated warnings. -/
def DefineOperator (env : Catalog) (names : List String) (parameters : List DefElem) :
    Except PgError (OperatorCreateArgs × List String) := do
  let (oprNamespace, oprName) := env.creationNamespace names
  let _ ← errUnless (env.aclNamespaceCreate oprNamespace)
      (.aclFailure ( "schema " ++ toString oprNamespace))
  let (attrs, warns) ← foldOprDefs parameters ({}, [])
  let _ ← errUnless (!attrs.functionName.isEmpty)
      (.invalidFunctionDefinition "operator function must be specified" none)
  let typeId1 ← resolveOperandType env attrs.typeName1
  let typeId2 ← resolveOperandType env attrs.typeName2
  let _ ← errUnless (OidIsValid typeId1 || OidIsValid typeId2)
      (.invalidFunctionDefinition "operator argument types must be specified" none)
  let _ ← errUnless (OidIsValid typeId2)
      (.invalidFunctionDefinition "operator right argument type must be specified"
        (some "Postfix operators are not supported."))
  let _ ← errUnless (attrs.typeName1.isNone || env.aclTypeUsage typeId1)
      (.aclFailure ( "type " ++ toString typeId1))
  let _ ← errUnless (attrs.typeName2.isNone || env.aclTypeUsage typeId2)
      (.aclFailure ( "type " ++ toString typeId2))
  let functionOid ← LookupFuncName env attrs.functionName (operArgTypes typeId1 typeId2) false
  let _ ← errUnless (env.aclFuncExecute functionOid)
      (.aclFailure (NameListToString attrs.functionName))
  let rettype := env.funcRettype functionOid
  let _ ← errUnless (env.aclTypeUsage rettype) (.aclFailure ( "type " ++ toString rettype))
  let restrictionOid ←
    if attrs.restrictionName.isEmpty then pure invalidOid
    else ValidateRestrictionEstimator env attrs.restrictionName
  let joinOid ←
    if attrs.joinName.isEmpty then pure invalidOid
    else ValidateJoinEstimator env attrs.joinName
  .ok ({ oprName := oprName, oprNamespace := oprNamespace,
         leftTypeId := typeId1, rightTypeId := typeId2,
         functionOid := functionOid,
         commutatorName := attrs.commutatorName, negatorName := attrs.negatorName,
         restrictionOid := restrictionOid, joinOid := joinOid,
         canMerge := attrs.canMerge, canHash := attrs.canHash }, warns)

/-- A row of the operator catalog (`Form_pg_operator`), restricted to
the columns this core reads or writes. -/
structure PgOperator where
  oprname : String
  oprnamespace : Oid
  oprowner : Oid
  oprleft : Oid
  oprright : Oid
  oprresult : Oid
  oprcom : Oid
  oprnegate : Oid
  oprcode : Oid
  oprrest : Oid
  oprjoin : Oid
  oprcanmerge : Bool
  oprcanhash : Bool
  deriving Repr, DecidableEq

/-- The local state accumulated by `AlterOperator`'s loop over the
option list (lines 421-426 of the source). -/
structure AlterParse where
  restrictionName : List String := []
  updateRestriction : Bool := false
  joinName : List String := []
  updateJoin : Bool := false
  deriving Repr, DecidableEq

/-- One iteration of `AlterOperator`'s option loop (lines 437-481): an
absent argument means "NONE, removes the function"; `restrict` and
`join` are recorded for update; the other keys `CREATE OPERATOR`
accepts raise the "cannot be changed" error; anything else raises the
"not recognized" error. -/
def applyAlterOption (ap : AlterParse) (defel : DefElem) : Except PgError AlterParse :=
  let paramE : Except PgError (List String) :=
    match defel.arg with
    | none => .ok []
    | some _ => defGetQualifiedName defel
  match paramE with
  | .error e => .error e
  | .ok param =>
    if defel.defname = "restrict" then
      .ok { ap with restrictionName := param, updateRestriction := true }
    else if defel.defname = "join" then
      .ok { ap with joinName := param, updateJoin := true }
    else if defel.defname = "leftarg" ∨ defel.defname = "rightarg" ∨
            defel.defname = "function" ∨ defel.defname = "procedure" ∨
            defel.defname = "commutator" ∨ defel.defname = "negator" ∨
            defel.defname = "hashes" ∨ defel.defname = "merges" then
      .error (.syntaxError ( "operator attribute \"" ++ defel.defname ++ "\" cannot be changed"))
    else
      .error (.syntaxError ( "operator attribute \"" ++ defel.defname ++ "\" not recognized"))

/-- The whole option fold of `AlterOperator`: left fold of
`applyAlterOption`, stopping at the first error. -/
def foldAlterOptions : List DefElem → AlterParse → Except PgError AlterParse
  | [], ap => .ok ap
  | d :: ds, ap =>
    match applyAlterOption ap d with
    | .ok ap2 => foldAlterOptions ds ap2
    | .error e => .error e

/-- The environment of `AlterOperator`: the estimator-validation
catalog, the operator catalog keyed by OID, and the ownership check. -/
structure AlterEnv where
  est : Catalog
  opers : Oid → Option PgOperator
  operOwnerOk : Oid → Bool

/-- `AlterOperator`: fetch the stored row, fold the options, check
ownership, validate any supplied estimator, re-check the shape
constraints against the *stored* row (binary for `join`,
boolean-returning for either estimator), and build the updated row,
replacing exactly the fields marked for update. -/
def AlterOperator (env : AlterEnv) (oprId : Oid) (options : List DefElem) :
    Except PgError PgOperator :=
  match env.opers oprId with
  | none => .error (.internalError ( "cache lookup failed for operator " ++ toString oprId))
  | some oprForm =>
    match foldAlterOptions options {} with
    | .error e => .error e
    | .ok ap =>
      if !env.operOwnerOk oprId then .error (.aclFailure oprForm.oprname)
      else
        match (if ap.restrictionName.isEmpty then .ok invalidOid
               else ValidateRestrictionEstimator env.est ap.restrictionName) with
        | .error e => .error e
        | .ok restrictionOid =>
          match (if ap.joinName.isEmpty then .ok invalidOid
                 else ValidateJoinEstimator env.est ap.joinName) with
          | .error e => .error e
          | .ok joinOid =>
            if !(OidIsValid oprForm.oprleft && OidIsValid oprForm.oprright) &&
                OidIsValid joinOid then
              .error (.invalidFunctionDefinition
                "only binary operators can have join selectivity" none)
            else if (oprForm.oprresult != BOOLOID) && OidIsValid restrictionOid then
              .error (.invalidFunctionDefinition
                "only boolean operators can have restriction selectivity" none)
            else if (oprForm.oprresult != BOOLOID) && OidIsValid joinOid then
              .error (.invalidFunctionDefinition
                "only boolean operators can have join selectivity" none)
            else
              .ok { oprForm with
                    oprrest := if ap.updateRestriction then restrictionOid
                               else oprForm.oprrest,
                    oprjoin := if ap.updateJoin then joinOid else oprForm.oprjoin }

/-- Point update of the operator catalog. -/
def updateOper (opers : Oid → Option PgOperator) (id : Oid)
    (f : PgOperator → PgOperator) : Oid → Option PgOperator :=
  fun x => if x = id then (opers x).map f else opers x

/-- Point deletion from the operator catalog (`CatalogTupleDelete`). -/
def deleteOper (opers : Oid → Option PgOperator) (id : Oid) :
    Oid → Option PgOperator :=
  fun x => if x = id then none else opers x

/-- Modelled from the spec: `OperatorUpd(baseId, commId, negId, true)`
(external `pg_operator.c` storage collaborator, called with
`isDelete = true`) clears the reciprocal links on the other side(s):
the commutator link of the row `commId` and the negator link of the row
`negId`, for whichever of the two is a valid OID. -/
def OperatorUpd (opers : Oid → Option PgOperator) (commId negId : Oid) :
    Oid → Option PgOperator :=
  let opers1 :=
    if OidIsValid commId then
      updateOper opers commId (fun op => { op with oprcom := invalidOid })
    else opers
  if OidIsValid negId then
    updateOper opers1 negId (fun op => { op with oprnegate := invalidOid })
  else opers1

/-- `RemoveOperatorById`: fetch the row (an absent row is an internal
"cache lookup failed" error); when a commutator or negator link is set,
first have the storage collaborator clear the reciprocal links, and in
the self-referential case re-fetch the just-updated row; finally delete
the row.  The result is the catalog after deletion together with the
row snapshot held at the moment of deletion. -/
def RemoveOperatorById (opers : Oid → Option PgOperator) (operOid : Oid) :
    Except PgError ((Oid → Option PgOperator) × PgOperator) := do
  let tup ← match opers operOid with
    | some op => Except.ok op
    | none => Except.error (.internalError ( "cache lookup failed for operator " ++ toString operOid))
  if OidIsValid tup.oprcom || OidIsValid tup.oprnegate then do
    let opers2 := OperatorUpd opers tup.oprcom tup.oprnegate
    if operOid = tup.oprcom ∨ operOid = tup.oprnegate then do
      let tup2 ← match opers2 operOid with
        | some op => Except.ok op
        | none => Except.error (.internalError ( "cache lookup failed for operator " ++ toString operOid))
      .ok (deleteOper opers2 operOid, tup2)
    else
      .ok (deleteOper opers2 operOid, tup)
  else
    .ok (deleteOper opers operOid, tup)


/-- Sample binary boolean operator that is its own commutator; stored at
OID 3 in `removeFixture`. -/
def selfCommOp : PgOperator :=
  { oprname := "selfc", oprnamespace := 11, oprowner := 10, oprleft := 25, oprright := 25,
    oprresult := BOOLOID, oprcom := 3, oprnegate := 0, oprcode := 70,
    oprrest := 60, oprjoin := 50, oprcanmerge := true, oprcanhash := true }

/-- Sample operator whose commutator is the distinct operator at OID 2;
stored at OID 1 in `removeFixture`. -/
def pairOpA : PgOperator := { selfCommOp with oprname := "eqA", oprcom := 2 }

/-- Sample operator whose commutator is the distinct operator at OID 1;
stored at OID 2 in `removeFixture`. -/
def pairOpB : PgOperator := { selfCommOp with oprname := "eqB", oprcom := 1 }

/-- A small concrete operator catalog for exercising
`RemoveOperatorById`. -/
def removeFixture : Oid → Option PgOperator :=
  fun o =>
    if o = 3 then some selfCommOp
    else if o = 1 then some pairOpA
    else if o = 2 then some pairOpB
    else none

/-- A small concrete catalog for exercising the estimator validators:
`est4` matches only the legacy 4-parameter signature, `jboth` matches
both signatures, and no other name matches anything. -/
def c1Env : Catalog :=
  { lookupFunc := fun n args =>
      if n = ["est4"] ∧ args = joinEstimatorArgTypes.take 4 then some 77
      else if n = ["rest"] ∧ args = restrictionEstimatorArgTypes then some 76
      else if n = ["jboth"] ∧ args = joinEstimatorArgTypes.take 4 then some 78
      else if n = ["jboth"] ∧ args = joinEstimatorArgTypes then some 79
      else none,
    funcRettype := fun _ => FLOAT8OID,
    resolveType := fun t => if t.names = ["int4"] then some 23 else none,
    aclNamespaceCreate := fun _ => true,
    aclTypeUsage := fun _ => true,
    aclFuncExecute := fun _ => true,
    creationNamespace := fun n => (1, NameListToString n) }



/-- A sample resolvable operand type name (`int4`). -/
def tInt : PgTypeName := { names := ["int4"], setof := false }


/-- A lookup table that answers arity-0 queries with a junk OID and
otherwise agrees with `c1Env`. -/
def c8LookupJunk : List String → List Oid → Option Oid :=
  fun n args => if args = [] then some 999 else c1Env.lookupFunc n args


/-- Invariant I4 of the spec: a set restriction estimator implies a
boolean result type. -/
def invI4 (op : PgOperator) : Prop :=
  OidIsValid op.oprrest = true → op.oprresult = BOOLOID

/-- Invariant I5 of the spec: a set join estimator implies a boolean
result type and both operand types present. -/
def invI5 (op : PgOperator) : Prop :=
  OidIsValid op.oprjoin = true →
    op.oprresult = BOOLOID ∧ OidIsValid op.oprleft = true ∧ OidIsValid op.oprright = true

/-- Sample stored prefix-unary boolean operator (left operand absent),
with no estimators set; at OID 4 in `alterFixture`. -/
def unaryBoolOp : PgOperator :=
  { selfCommOp with
    oprname := "pre", oprleft := 0, oprcom := 0, oprnegate := 0,
    oprrest := 0, oprjoin := 0 }

/-- Sample stored binary operator returning `int4` rather than `bool`,
with no estimators set; at OID 5 in `alterFixture`. -/
def binNonBoolOp : PgOperator :=
  { selfCommOp with
    oprname := "plus", oprresult := 23, oprcom := 0, oprnegate := 0,
    oprrest := 0, oprjoin := 0 }

/-- A concrete alteration environment over `c1Env` and three stored
operators. -/
def alterFixture : AlterEnv :=
  { est := c1Env,
    opers := fun o =>
      if o = 3 then some selfCommOp
      else if o = 4 then some unaryBoolOp
      else if o = 5 then some binNonBoolOp
      else none,
    operOwnerOk := fun _ => true }

/-- Reduction of the `Except` monad bind on a success value. -/
@[simp] theorem exceptBind_ok {α β : Type} (a : α) (f : α → Except PgError β) :
    (Except.ok a >>= f) = f a := rfl

/-- Reduction of the `Except` monad bind on an error value. -/
@[simp] theorem exceptBind_error {α β : Type} (e : PgError) (f : α → Except PgError β) :
    ((Except.error e : Except PgError α) >>= f) = Except.error e := rfl

/-- Reduction of the `Except` monad `pure`. -/
@[simp] theorem exceptPure_eq {α : Type} (a : α) :
    (pure a : Except PgError α) = Except.ok a := rfl


/-- Appending to the definition-attribute fold: the fold of `xs ++ ys`
runs `xs` first and continues with `ys` from its result. -/
theorem foldOprDefs_append (xs ys : List DefElem) (acc : OprAttrs × List String) :
    foldOprDefs (xs ++ ys) acc =
      match foldOprDefs xs acc with
      | .ok acc2 => foldOprDefs ys acc2
      | .error e => .error e := by
  induction xs generalizing acc with
  | nil => simp [foldOprDefs]
  | cons d ds ih =>
    simp only [List.cons_append, foldOprDefs]
    cases applyOprDef acc d with
    | ok acc2 => simpa using ih acc2
    | error e => simp

/-- Appending to the alteration-option fold: the fold of `xs ++ ys`
runs `xs` first and continues with `ys` from its result. -/
theorem foldAlterOptions_append (xs ys : List DefElem) (ap : AlterParse) :
    foldAlterOptions (xs ++ ys) ap =
      match foldAlterOptions xs ap with
      | .ok ap2 => foldAlterOptions ys ap2
      | .error e => .error e := by
  induction xs generalizing ap with
  | nil => simp [foldAlterOptions]
  | cons d ds ih =>
    simp only [List.cons_append, foldAlterOptions]
    cases applyAlterOption ap d with
    | ok ap2 => simpa using ih ap2
    | error e => simp


/-- The argument-type list handed to the operator-function lookup is
never empty, whatever the two resolved operand type OIDs are. -/
theorem operArgTypes_ne_nil (t1 t2 : Oid) : operArgTypes t1 t2 ≠ [] := by
  unfold operArgTypes
  by_cases h1 : OidIsValid t1 <;> by_cases h2 : OidIsValid t2 <;> simp [h1, h2]


/-- Anatomy of a successful `AlterOperator` run: the stored row exists,
the option fold succeeded, every shape check passed for whichever
estimator OID came out valid, and the result replaces exactly the
fields marked for update. -/
theorem AlterOperator_ok_cases (env : AlterEnv) (oprId : Oid) (options : List DefElem)
    (op' : PgOperator) (h : AlterOperator env oprId options = .ok op') :
    ∃ op ap restrictionOid joinOid,
      env.opers oprId = some op ∧
      foldAlterOptions options {} = .ok ap ∧
      (OidIsValid joinOid = true →
        ((OidIsValid op.oprleft && OidIsValid op.oprright) = true ∧
          op.oprresult = BOOLOID)) ∧
      (OidIsValid restrictionOid = true → op.oprresult = BOOLOID) ∧
      op' = { op with
        oprrest := if ap.updateRestriction then restrictionOid else op.oprrest,
        oprjoin := if ap.updateJoin then joinOid else op.oprjoin } := by
  unfold AlterOperator at h
  split at h
  · exact absurd h (by simp)
  rename_i op hop
  split at h
  · exact absurd h (by simp)
  rename_i ap hfold
  split at h
  · exact absurd h (by simp)
  rename_i how
  split at h
  · exact absurd h (by simp)
  rename_i restrictionOid hre
  split at h
  · exact absurd h (by simp)
  rename_i joinOid hjo
  split at h
  · exact absurd h (by simp)
  rename_i hshape1
  split at h
  · exact absurd h (by simp)
  rename_i hshape2
  split at h
  · exact absurd h (by simp)
  rename_i hshape3
  refine ⟨op, ap, restrictionOid, joinOid, hop, hfold, ?_, ?_, ?_⟩
  · intro hjv
    simp only [hjv, Bool.and_true, Bool.not_eq_true'] at hshape1
    simp only [hjv, Bool.and_true, Bool.not_eq_true'] at hshape3
    constructor
    · simpa using hshape1
    · simpa [bne] using hshape3
  · intro hrv
    simp only [hrv, Bool.and_true, Bool.not_eq_true'] at hshape2
    simpa [bne] using hshape2
  · exact (Except.ok.inj h).symm

/-- Claim C1: for every join-estimator name, `ValidateJoinEstimator`
attempts both the 5-parameter and the legacy 4-parameter signature: a
name matching exactly the 4-parameter signature and nothing else
succeeds and returns that function (given it passes the return-type and
privilege checks); a name matching both signatures fails
`AmbiguousFunction`; a name matching neither fails `UndefinedFunction`
naming the 5-parameter signature as the expected form. -/
theorem C1_join_estimator_dual_signature (env : Catalog) (name : List String) :
    (∀ f4, env.lookupFunc name joinEstimatorArgTypes = none →
      env.lookupFunc name (joinEstimatorArgTypes.take 4) = some f4 →
      OidIsValid f4 = true →
      env.funcRettype f4 = FLOAT8OID →
      env.aclFuncExecute f4 = true →
      ValidateJoinEstimator env name = .ok f4) ∧
    (∀ f5 f4, env.lookupFunc name joinEstimatorArgTypes = some f5 →
      env.lookupFunc name (joinEstimatorArgTypes.take 4) = some f4 →
      OidIsValid f5 = true → OidIsValid f4 = true →
      ValidateJoinEstimator env name =
        .error (.ambiguousFunction ( "join estimator function " ++
          NameListToString name ++ " has multiple matches"))) ∧
    (env.lookupFunc name joinEstimatorArgTypes = none →
      env.lookupFunc name (joinEstimatorArgTypes.take 4) = none →
      ValidateJoinEstimator env name =
        .error (.undefinedFunction name joinEstimatorArgTypes)) := by
  refine ⟨?_, ?_, ?_⟩
  · intro f4 h5 h4 hv hr ha
    simp only [OidIsValid, ne_eq, decide_not, Bool.not_eq_true', decide_eq_false_iff_not] at hv
    simp [ValidateJoinEstimator, LookupFuncName, h5, h4, hv, hr, ha, invalidOid, OidIsValid]
  · intro f5 f4 h5 h4 hv5 hv4
    simp only [OidIsValid, ne_eq, decide_not, Bool.not_eq_true', decide_eq_false_iff_not] at hv5 hv4
    simp [ValidateJoinEstimator, LookupFuncName, h5, h4, hv5, hv4, OidIsValid]
  · intro h5 h4
    simp [ValidateJoinEstimator, LookupFuncName, h5, h4, invalidOid, OidIsValid]

/-- Witness for C1 on the concrete catalog `c1Env`: the three branches
at the names `est4`, `jboth` and `missing`. -/
theorem C1_witness :
    ValidateJoinEstimator c1Env ["est4"] = .ok 77 ∧
    ValidateJoinEstimator c1Env ["jboth"] =
      .error (.ambiguousFunction "join estimator function jboth has multiple matches") ∧
    ValidateJoinEstimator c1Env ["missing"] =
      .error (.undefinedFunction ["missing"] joinEstimatorArgTypes) :=
  ⟨(C1_join_estimator_dual_signature c1Env ["est4"]).1 77
      (by decide) (by decide) (by decide) (by decide) (by decide),
   (C1_join_estimator_dual_signature c1Env ["jboth"]).2.1 79 78
      (by decide) (by decide) (by decide) (by decide),
   (C1_join_estimator_dual_signature c1Env ["missing"]).2.2
      (by decide) (by decide)⟩

/-- Claim C2: `RemoveOperatorById` on an operator with a commutator or
negator link first has the storage collaborator clear the reciprocal
link(s) and only then deletes the row; when the operator is its own
commutator or negator the row snapshot in hand at the delete is the
re-fetched, already-cleared one, never the stale one; and a fetch that
finds no record fails with the internal "cache lookup failed" error. -/
theorem C2_remove_operator (opers : Oid → Option PgOperator) (operOid : Oid)
    (hvalid : OidIsValid operOid = true) :
    (opers operOid = none →
      RemoveOperatorById opers operOid =
        .error (.internalError ( "cache lookup failed for operator " ++ toString operOid))) ∧
    (∀ op, opers operOid = some op → op.oprcom = operOid → op.oprnegate = invalidOid →
      RemoveOperatorById opers operOid =
        .ok (deleteOper opers operOid, { op with oprcom := invalidOid })) ∧
    (∀ op, opers operOid = some op → op.oprnegate = operOid → op.oprcom = invalidOid →
      RemoveOperatorById opers operOid =
        .ok (deleteOper opers operOid, { op with oprnegate := invalidOid })) ∧
    (∀ op opB, opers operOid = some op → OidIsValid op.oprcom = true → op.oprcom ≠ operOid →
      op.oprnegate = invalidOid → opers op.oprcom = some opB →
      RemoveOperatorById opers operOid =
        .ok (deleteOper (updateOper opers op.oprcom
              (fun o => { o with oprcom := invalidOid })) operOid, op) ∧
      (deleteOper (updateOper opers op.oprcom
          (fun o => { o with oprcom := invalidOid })) operOid) op.oprcom =
        some { opB with oprcom := invalidOid }) := by
  have hne : operOid ≠ 0 := by simpa [OidIsValid] using hvalid
  refine ⟨?_, ?_, ?_, ?_⟩
  · intro h
    simp [RemoveOperatorById, h]
  · intro op h hcom hneg
    have hfun : deleteOper (updateOper opers operOid
        (fun o => { o with oprcom := invalidOid })) operOid = deleteOper opers operOid := by
      funext x
      by_cases hx : x = operOid <;> simp [deleteOper, updateOper, hx]
    simp only [invalidOid] at hfun
    simp [RemoveOperatorById, h, hcom, hneg, OperatorUpd, OidIsValid, invalidOid, hne, hfun,
      updateOper]
  · intro op h hneg hcom
    have hfun : deleteOper (updateOper opers operOid
        (fun o => { o with oprnegate := invalidOid })) operOid = deleteOper opers operOid := by
      funext x
      by_cases hx : x = operOid <;> simp [deleteOper, updateOper, hx]
    simp only [invalidOid] at hfun
    simp [RemoveOperatorById, h, hcom, hneg, OperatorUpd, OidIsValid, invalidOid, hne, hfun,
      updateOper]
  · intro op opB h hcomv hcomne hneg hB
    have hcne : op.oprcom ≠ 0 := by simpa [OidIsValid] using hcomv
    have hne2 : ¬ (operOid = op.oprcom) := fun hx => hcomne hx.symm
    constructor
    · simp [RemoveOperatorById, h, hneg, OperatorUpd, OidIsValid, invalidOid, hne, hcne, hne2]
    · simp [deleteOper, updateOper, hcomne, hB]

/-- Witness for C2 on the concrete catalog `removeFixture`: removing the
self-commutator at OID 3, removing OID 1 whose commutator is the
distinct OID 2, and removing the absent OID 99. -/
theorem C2_witness :
    RemoveOperatorById removeFixture 99 =
      .error (.internalError "cache lookup failed for operator 99") ∧
    RemoveOperatorById removeFixture 3 =
      .ok (deleteOper removeFixture 3, { selfCommOp with oprcom := invalidOid }) ∧
    (RemoveOperatorById removeFixture 1 =
      .ok (deleteOper (updateOper removeFixture 2
            (fun o => { o with oprcom := invalidOid })) 1, pairOpA) ∧
     (deleteOper (updateOper removeFixture 2
         (fun o => { o with oprcom := invalidOid })) 1) 2 =
       some { pairOpB with oprcom := invalidOid }) :=
  ⟨(C2_remove_operator removeFixture 99 (by decide)).1 (by decide),
   (C2_remove_operator removeFixture 3 (by decide)).2.1 selfCommOp
      (by decide) (by decide) (by decide),
   (C2_remove_operator removeFixture 1 (by decide)).2.2.2 pairOpA pairOpB
      (by decide) (by decide) (by decide) (by decide) (by decide)⟩

/-- Claim C5: an attribute key recognized by neither branch of the
definition fold only appends a warning and leaves the accumulated
attributes unchanged, so the definition continues and all recognized
keys still apply; the same key supplied to the alteration option loop
is a fatal "not recognized" error. -/
theorem C5_unrecognized_key_severity (key : String) (v : Option DefValue)
    (hk : key ∉ ["leftarg", "rightarg", "function", "procedure", "commutator",
      "negator", "restrict", "join", "hashes", "merges", "sort1", "sort2", "ltcmp", "gtcmp"])
    (hv : v = none ∨ ∃ q, v = some (DefValue.qualName q)) :
    (∀ s w, applyOprDef (s, w) ⟨key, v⟩ =
      .ok (s, w ++ [ "operator attribute \"" ++ key ++ "\" not recognized"])) ∧
    (∀ pre post s w, foldOprDefs pre ({}, []) = .ok (s, w) →
      foldOprDefs (pre ++ ⟨key, v⟩ :: post) ({}, []) =
        foldOprDefs post (s, w ++ [ "operator attribute \"" ++ key ++ "\" not recognized"])) ∧
    (∀ ap, applyAlterOption ap ⟨key, v⟩ =
      .error (.syntaxError ( "operator attribute \"" ++ key ++ "\" not recognized"))) := by
  simp only [List.mem_cons, List.not_mem_nil, or_false, not_or] at hk
  obtain ⟨h1, h2, h3, h4, h5, h6, h7, h8, h9, h10, h11, h12, h13, h14⟩ := hk
  have hstep : ∀ s w, applyOprDef (s, w) ⟨key, v⟩ =
      .ok (s, w ++ [ "operator attribute \"" ++ key ++ "\" not recognized"]) := by
    intro s w
    simp [applyOprDef, h1, h2, h3, h4, h5, h6, h7, h8, h9, h10, h11, h12, h13, h14]
  refine ⟨hstep, ?_, ?_⟩
  · intro pre post s w hpre
    rw [foldOprDefs_append, hpre]
    simp only [foldOprDefs, hstep]
  · intro ap
    rcases hv with rfl | ⟨q, rfl⟩ <;>
      simp [applyAlterOption, defGetQualifiedName, h1, h2, h3, h4, h5, h6, h7, h8, h9, h10]

/-- Witness for C5 at the key `foo`: during definition the fold keeps
its state and records the warning; during alteration the same key is a
fatal error. -/
theorem C5_witness :
    applyOprDef ({}, []) ⟨"foo", none⟩ =
      .ok ({}, ["operator attribute \"foo\" not recognized"]) ∧
    foldOprDefs ([⟨"merges", none⟩] ++ ⟨"foo", none⟩ :: []) ({}, []) =
      foldOprDefs [] ({ canMerge := true }, ["operator attribute \"foo\" not recognized"]) ∧
    applyAlterOption {} ⟨"foo", none⟩ =
      .error (.syntaxError "operator attribute \"foo\" not recognized") :=
  ⟨(C5_unrecognized_key_severity "foo" none (by decide) (Or.inl rfl)).1 {} [],
   (C5_unrecognized_key_severity "foo" none (by decide) (Or.inl rfl)).2.1
      [⟨"merges", none⟩] [] { canMerge := true } [] (by rfl),
   (C5_unrecognized_key_severity "foo" none (by decide) (Or.inl rfl)).2.2 {}⟩

/-- Claim C6: supplying any recognized creation-time key other than
`restrict`/`join` (`leftarg`, `rightarg`, `function`, `procedure`,
`commutator`, `negator`, `hashes`, `merges`) to the alteration option
loop fails with the distinct "cannot be changed" error, both at the
single-option step and through `AlterOperator` itself, and that error
differs from the "not recognized" error raised for unknown keys. -/
theorem C6_immutable_attribute_error (d : DefElem)
    (hd : d.defname ∈ ["leftarg", "rightarg", "function", "procedure", "commutator",
      "negator", "hashes", "merges"])
    (hv : d.arg = none ∨ ∃ q, d.arg = some (DefValue.qualName q)) :
    (∀ ap, applyAlterOption ap d =
      .error (.syntaxError ( "operator attribute \"" ++ d.defname ++ "\" cannot be changed"))) ∧
    (∀ (env : AlterEnv) (oprId : Oid) (op : PgOperator) (pre post : List DefElem)
        (ap0 : AlterParse),
      env.opers oprId = some op →
      foldAlterOptions pre {} = .ok ap0 →
      AlterOperator env oprId (pre ++ d :: post) =
        .error (.syntaxError ( "operator attribute \"" ++ d.defname ++ "\" cannot be changed"))) ∧
    (∀ k : String,
      PgError.syntaxError ( "operator attribute \"" ++ k ++ "\" cannot be changed") ≠
      PgError.syntaxError ( "operator attribute \"" ++ k ++ "\" not recognized")) := by
  have hd' : d.defname = "leftarg" ∨ d.defname = "rightarg" ∨
      d.defname = "function" ∨ d.defname = "procedure" ∨
      d.defname = "commutator" ∨ d.defname = "negator" ∨
      d.defname = "hashes" ∨ d.defname = "merges" := by
    simpa using hd
  have hrj : d.defname ≠ "restrict" ∧ d.defname ≠ "join" := by
    rcases hd' with h | h | h | h | h | h | h | h <;> simp_all
  have hstep : ∀ ap, applyAlterOption ap d =
      .error (.syntaxError ( "operator attribute \"" ++ d.defname ++ "\" cannot be changed")) := by
    intro ap
    rcases hv with harg | ⟨q, harg⟩ <;>
      simp [applyAlterOption, harg, defGetQualifiedName, hrj.1, hrj.2, hd']
  refine ⟨hstep, ?_, ?_⟩
  · intro env oprId op pre post ap0 hop hpre
    have hfold : foldAlterOptions (pre ++ d :: post) {} =
        .error (.syntaxError ( "operator attribute \"" ++ d.defname ++ "\" cannot be changed")) := by
      rw [foldAlterOptions_append, hpre]
      simp only [foldAlterOptions, hstep]
    simp [AlterOperator, hop, hfold]
  · intro k h
    have hmsg := PgError.syntaxError.inj h
    have hlen := congrArg String.length hmsg
    have hc : ("\" cannot be changed" : String).length = 19 := by decide
    have hn : ("\" not recognized" : String).length = 16 := by decide
    simp only [String.length_append, hc, hn] at hlen
    omega

/-- Witness for C6 at the key `hashes` on the fixture catalog: both the
single step and the whole `AlterOperator` fail with "cannot be
changed", and that error differs from the "not recognized" one. -/
theorem C6_witness :
    applyAlterOption {} ⟨"hashes", none⟩ =
      .error (.syntaxError "operator attribute \"hashes\" cannot be changed") ∧
    AlterOperator
      { est := c1Env, opers := removeFixture, operOwnerOk := fun _ => true } 3
      ([] ++ ⟨"hashes", none⟩ :: []) =
      .error (.syntaxError "operator attribute \"hashes\" cannot be changed") ∧
    PgError.syntaxError "operator attribute \"hashes\" cannot be changed" ≠
      PgError.syntaxError "operator attribute \"hashes\" not recognized" :=
  ⟨(C6_immutable_attribute_error ⟨"hashes", none⟩ (by decide) (Or.inl rfl)).1 {},
   (C6_immutable_attribute_error ⟨"hashes", none⟩ (by decide) (Or.inl rfl)).2.1
      { est := c1Env, opers := removeFixture, operOwnerOk := fun _ => true } 3
      selfCommOp [] [] {} (by rfl) (by rfl),
   (C6_immutable_attribute_error ⟨"hashes", none⟩ (by decide) (Or.inl rfl)).2.2 "hashes"⟩

/-- Claim C10: the definition fold is last-write-wins per key — the
fold processes a trailing element against the state accumulated from
everything before it, so a later occurrence of a recognized key
overwrites an earlier one — and each legacy merge alias (`sort1`,
`sort2`, `ltcmp`, `gtcmp`) sets `canMerge` to true unconditionally,
ignoring any attached value; a later `merges` key still resets it. -/
theorem C10_fold_last_write_wins :
    (∀ s w v, applyOprDef (s, w) ⟨"sort1", v⟩ = .ok ({ s with canMerge := true }, w)) ∧
    (∀ s w v, applyOprDef (s, w) ⟨"sort2", v⟩ = .ok ({ s with canMerge := true }, w)) ∧
    (∀ s w v, applyOprDef (s, w) ⟨"ltcmp", v⟩ = .ok ({ s with canMerge := true }, w)) ∧
    (∀ s w v, applyOprDef (s, w) ⟨"gtcmp", v⟩ = .ok ({ s with canMerge := true }, w)) ∧
    (∀ ps acc acc2 d, foldOprDefs ps acc = .ok acc2 →
      foldOprDefs (ps ++ [d]) acc = applyOprDef acc2 d) ∧
    (∀ ps s w b, foldOprDefs ps ({}, []) = .ok (s, w) →
      foldOprDefs (ps ++ [⟨"merges", some (.boolean b)⟩]) ({}, []) =
        .ok ({ s with canMerge := b }, w)) := by
  refine ⟨?_, ?_, ?_, ?_, ?_, ?_⟩
  · intro s w v; simp [applyOprDef]
  · intro s w v; simp [applyOprDef]
  · intro s w v; simp [applyOprDef]
  · intro s w v; simp [applyOprDef]
  · intro ps acc acc2 d h
    rw [foldOprDefs_append, h]
    simp [foldOprDefs]
    cases applyOprDef acc2 d <;> simp [foldOprDefs]
  · intro ps s w b h
    rw [foldOprDefs_append, h]
    simp [foldOprDefs, applyOprDef, defGetBoolean]

/-- Witness for C10: `sort1` with an attached `false` still enables
`canMerge`, and a later `merges = false` resets it. -/
theorem C10_witness :
    applyOprDef ({}, []) ⟨"sort1", some (.boolean false)⟩ =
      .ok ({ canMerge := true }, []) ∧
    foldOprDefs ([⟨"sort1", some (.boolean false)⟩] ++
        [⟨"merges", some (.boolean false)⟩]) ({}, []) =
      .ok ({ canMerge := false }, []) :=
  ⟨(C10_fold_last_write_wins).1 {} [] (some (.boolean false)),
   (C10_fold_last_write_wins).2.2.2.2.2 [⟨"sort1", some (.boolean false)⟩]
      { canMerge := true } [] false (by rfl)⟩

/-- Claim C4: when neither operand type is given, `DefineOperator`
fails with the generic "operator argument types must be specified"
message; when the left type is present (and resolves) but the right is
absent, it fails with the distinct postfix-specific message carrying
the "Postfix operators are not supported." detail. -/
theorem C4_operand_type_errors (env : Catalog) (names : List String)
    (params : List DefElem) (attrs : OprAttrs) (warns : List String)
    (hacl : env.aclNamespaceCreate (env.creationNamespace names).1 = true)
    (hf : foldOprDefs params ({}, []) = .ok (attrs, warns))
    (hfn : attrs.functionName ≠ []) :
    (attrs.typeName1 = none → attrs.typeName2 = none →
      DefineOperator env names params =
        .error (.invalidFunctionDefinition "operator argument types must be specified" none)) ∧
    (∀ t1 n1, attrs.typeName1 = some t1 → env.resolveType t1 = some n1 →
      OidIsValid n1 = true → attrs.typeName2 = none →
      DefineOperator env names params =
        .error (.invalidFunctionDefinition "operator right argument type must be specified"
          (some "Postfix operators are not supported."))) := by
  have hfn' : attrs.functionName.isEmpty = false := by
    rcases hl : attrs.functionName with _ | ⟨a, l⟩
    · exact absurd hl hfn
    · simp
  rcases hcn : env.creationNamespace names with ⟨ns, nm⟩
  rw [hcn] at hacl
  constructor
  · intro ht1 ht2
    simp [DefineOperator, hcn, hacl, errUnless, hf, hfn', hfn, ht1, ht2,
      resolveOperandType, OidIsValid, invalidOid]
  · intro t1 n1 ht1 hr hv ht2
    have hv' : n1 ≠ 0 := by simpa [OidIsValid] using hv
    simp [DefineOperator, hcn, hacl, errUnless, hf, hfn', hfn, ht1, ht2,
      resolveOperandType, typenameTypeId, hr, hv', OidIsValid, invalidOid]

/-- Witness for C4 on the concrete catalog `c1Env`: a definition with
only a function gets the generic message; one that adds only a left
argument type gets the postfix-specific message. -/
theorem C4_witness :
    DefineOperator c1Env ["op"] [⟨"function", some (.qualName ["f"])⟩] =
      .error (.invalidFunctionDefinition "operator argument types must be specified" none) ∧
    DefineOperator c1Env ["op"]
        [⟨"function", some (.qualName ["f"])⟩, ⟨"leftarg", some (.typeName tInt)⟩] =
      .error (.invalidFunctionDefinition "operator right argument type must be specified"
        (some "Postfix operators are not supported.")) :=
  ⟨(C4_operand_type_errors c1Env ["op"] [⟨"function", some (.qualName ["f"])⟩]
      { functionName := ["f"] } [] (by decide) (by rfl) (by decide)).1 rfl rfl,
   (C4_operand_type_errors c1Env ["op"]
      [⟨"function", some (.qualName ["f"])⟩, ⟨"leftarg", some (.typeName tInt)⟩]
      { functionName := ["f"], typeName1 := some tInt } [] (by decide) (by rfl)
      (by decide)).2 tInt 23 rfl (by decide) (by decide) rfl⟩

/-- Claim C8: past the operand-type checks (the right type OID valid is
exactly the state in which `DefineOperator` reaches the lookup), the
function lookup receives arity equal to the count of present operand
types — 1 or 2, never 0 — and at arity 1 the single argument type is
the right operand type; moreover `DefineOperator` is insensitive to
what the catalog's function lookup would answer for an empty (arity-0)
argument list. -/
theorem C8_function_lookup_arity (t1 t2 : Oid) (h2 : OidIsValid t2 = true) :
    ((operArgTypes t1 t2).length =
      (if OidIsValid t1 then 1 else 0) + (if OidIsValid t2 then 1 else 0)) ∧
    ((operArgTypes t1 t2).length ≠ 0) ∧
    (OidIsValid t1 = false → operArgTypes t1 t2 = [t2]) ∧
    (∀ (env : Catalog) (f' : List String → List Oid → Option Oid)
        (names : List String) (params : List DefElem),
      (∀ n args, args ≠ [] → f' n args = env.lookupFunc n args) →
      DefineOperator { env with lookupFunc := f' } names params =
        DefineOperator env names params) := by
  refine ⟨?_, ?_, ?_, ?_⟩
  · by_cases h1 : OidIsValid t1 <;> simp [operArgTypes, h1, h2]
  · by_cases h1 : OidIsValid t1 <;> simp [operArgTypes, h1, h2]
  · intro h1
    simp [operArgTypes, h1]
  · intro env f' names params hagree
    have hlf : ∀ (n : List String) (args : List Oid) (mo : Bool), args ≠ [] →
        LookupFuncName { env with lookupFunc := f' } n args mo =
          LookupFuncName env n args mo := by
      intro n args mo hne
      simp [LookupFuncName, hagree n args hne]
    have hrest : ∀ n, ValidateRestrictionEstimator { env with lookupFunc := f' } n =
        ValidateRestrictionEstimator env n := by
      intro n
      simp only [ValidateRestrictionEstimator,
        hlf n restrictionEstimatorArgTypes false (by decide)]
    have hjoin : ∀ n, ValidateJoinEstimator { env with lookupFunc := f' } n =
        ValidateJoinEstimator env n := by
      intro n
      simp only [ValidateJoinEstimator,
        hlf n joinEstimatorArgTypes true (by decide),
        hlf n (joinEstimatorArgTypes.take 4) true (by decide),
        hlf n joinEstimatorArgTypes false (by decide)]
    have hro : ∀ t, resolveOperandType { env with lookupFunc := f' } t =
        resolveOperandType env t := by
      intro t
      cases t <;> simp [resolveOperandType, typenameTypeId]
    have hop : ∀ (n : List String) (a b : Oid) (mo : Bool),
        LookupFuncName { env with lookupFunc := f' } n (operArgTypes a b) mo =
          LookupFuncName env n (operArgTypes a b) mo := by
      intro n a b mo
      exact hlf n (operArgTypes a b) mo (operArgTypes_ne_nil a b)
    simp [DefineOperator, hrest, hjoin, hop, hro]

/-- Witness for C8: arity facts at a concrete unary shape, and
`DefineOperator` on the concrete catalog `c1Env` is unchanged by an
arity-0 lookup answer. -/
theorem C8_witness :
    (operArgTypes 0 23).length = (if OidIsValid 0 then 1 else 0) + (if OidIsValid 23 then 1 else 0) ∧
    (operArgTypes 0 23).length ≠ 0 ∧
    operArgTypes 0 23 = [23] ∧
    DefineOperator { c1Env with lookupFunc := c8LookupJunk } ["op"]
        [⟨"function", some (.qualName ["f"])⟩] =
      DefineOperator c1Env ["op"] [⟨"function", some (.qualName ["f"])⟩] :=
  ⟨(C8_function_lookup_arity 0 23 (by decide)).1,
   (C8_function_lookup_arity 0 23 (by decide)).2.1,
   (C8_function_lookup_arity 0 23 (by decide)).2.2.1 (by decide),
   (C8_function_lookup_arity 0 23 (by decide)).2.2.2 c1Env c8LookupJunk
      ["op"] [⟨"function", some (.qualName ["f"])⟩]
      (by intro n args hne; simp [c8LookupJunk, hne])⟩

/-- Claim C3: `AlterOperator` re-validates the estimator shape
constraints against the currently stored shape of the operator: a
stored non-binary operator rejects a supplied join estimator, a stored
operator with a non-boolean result type rejects either supplied
estimator, and consequently every successful alteration preserves
invariants I4 and I5. -/
theorem C3_alter_shape_revalidation (env : AlterEnv) (oprId : Oid) (op : PgOperator)
    (hop : env.opers oprId = some op) (how : env.operOwnerOk oprId = true) :
    (∀ jn j, jn ≠ [] → ValidateJoinEstimator env.est jn = .ok j → OidIsValid j = true →
      (OidIsValid op.oprleft && OidIsValid op.oprright) = false →
      AlterOperator env oprId [⟨"join", some (.qualName jn)⟩] =
        .error (.invalidFunctionDefinition
          "only binary operators can have join selectivity" none)) ∧
    (∀ rn r, rn ≠ [] → ValidateRestrictionEstimator env.est rn = .ok r →
      OidIsValid r = true → op.oprresult ≠ BOOLOID →
      AlterOperator env oprId [⟨"restrict", some (.qualName rn)⟩] =
        .error (.invalidFunctionDefinition
          "only boolean operators can have restriction selectivity" none)) ∧
    (∀ jn j, jn ≠ [] → ValidateJoinEstimator env.est jn = .ok j → OidIsValid j = true →
      (OidIsValid op.oprleft && OidIsValid op.oprright) = true → op.oprresult ≠ BOOLOID →
      AlterOperator env oprId [⟨"join", some (.qualName jn)⟩] =
        .error (.invalidFunctionDefinition
          "only boolean operators can have join selectivity" none)) ∧
    (∀ options op', invI4 op → invI5 op →
      AlterOperator env oprId options = .ok op' → invI4 op' ∧ invI5 op') := by
  refine ⟨?_, ?_, ?_, ?_⟩
  · intro jn j hjn hval hjv hbin
    have hjn' : jn.isEmpty = false := by
      rcases hl : jn with _ | ⟨a, l⟩
      · exact absurd hl hjn
      · simp
    simp [AlterOperator, hop, foldAlterOptions, applyAlterOption, defGetQualifiedName, how,
      hjn, hjn', hval, hjv, hbin]
  · intro rn r hrn hval hrv hres
    have hrn' : rn.isEmpty = false := by
      rcases hl : rn with _ | ⟨a, l⟩
      · exact absurd hl hrn
      · simp
    have hrv' : r ≠ 0 := by simpa [OidIsValid] using hrv
    simp [AlterOperator, hop, foldAlterOptions, applyAlterOption, defGetQualifiedName, how,
      hrn, hrn', hval, hrv, hrv', hres, OidIsValid, invalidOid, bne]
  · intro jn j hjn hval hjv hbin hres
    have hjn' : jn.isEmpty = false := by
      rcases hl : jn with _ | ⟨a, l⟩
      · exact absurd hl hjn
      · simp
    have hjv' : j ≠ 0 := by simpa [OidIsValid] using hjv
    have hbin' : op.oprleft ≠ 0 ∧ op.oprright ≠ 0 := by simpa [OidIsValid] using hbin
    simp [AlterOperator, hop, foldAlterOptions, applyAlterOption, defGetQualifiedName, how,
      hjn, hjn', hval, hjv, hjv', hbin'.1, hbin'.2, hres, OidIsValid, invalidOid, bne]
  · intro options op' h4 h5 hok
    obtain ⟨op0, ap, ro, jo, hop0, hfold, hj, hr, heq⟩ :=
      AlterOperator_ok_cases env oprId options op' hok
    have hopeq : op0 = op := by
      rw [hop] at hop0
      exact (Option.some.inj hop0).symm
    subst hopeq
    constructor
    · intro hrest
      rw [heq] at hrest ⊢
      simp only at hrest ⊢
      by_cases hu : ap.updateRestriction
      · rw [if_pos hu] at hrest
        exact hr hrest
      · rw [if_neg hu] at hrest
        exact h4 hrest
    · intro hjoin
      rw [heq] at hjoin ⊢
      simp only at hjoin ⊢
      by_cases hu : ap.updateJoin
      · rw [if_pos hu] at hjoin
        obtain ⟨hbin, hres⟩ := hj hjoin
        exact ⟨hres, (Bool.and_eq_true _ _).mp hbin |>.1, (Bool.and_eq_true _ _).mp hbin |>.2⟩
      · rw [if_neg hu] at hjoin
        exact h5 hjoin

/-- Witness for C3 on `alterFixture`: setting a join estimator on the
stored unary operator at OID 4 and either estimator on the stored
non-boolean operator at OID 5 fails, while a successful clear on the
operator at OID 3 preserves I4 and I5. -/
theorem C3_witness :
    AlterOperator alterFixture 4 [⟨"join", some (.qualName ["est4"])⟩] =
      .error (.invalidFunctionDefinition
        "only binary operators can have join selectivity" none) ∧
    AlterOperator alterFixture 5 [⟨"restrict", some (.qualName ["rest"])⟩] =
      .error (.invalidFunctionDefinition
        "only boolean operators can have restriction selectivity" none) ∧
    AlterOperator alterFixture 5 [⟨"join", some (.qualName ["est4"])⟩] =
      .error (.invalidFunctionDefinition
        "only boolean operators can have join selectivity" none) ∧
    (invI4 { selfCommOp with oprjoin := invalidOid } ∧
     invI5 { selfCommOp with oprjoin := invalidOid }) :=
  ⟨(C3_alter_shape_revalidation alterFixture 4 unaryBoolOp (by rfl) (by rfl)).1
      ["est4"] 77 (by decide) (by rfl) (by decide) (by decide),
   (C3_alter_shape_revalidation alterFixture 5 binNonBoolOp (by rfl) (by rfl)).2.1
      ["rest"] 76 (by decide) (by rfl) (by decide) (by decide),
   (C3_alter_shape_revalidation alterFixture 5 binNonBoolOp (by rfl) (by rfl)).2.2.1
      ["est4"] 77 (by decide) (by rfl) (by decide) (by decide) (by decide),
   (C3_alter_shape_revalidation alterFixture 3 selfCommOp (by rfl) (by rfl)).2.2.2
      [⟨"join", none⟩] { selfCommOp with oprjoin := invalidOid }
      (fun _ => rfl) (fun _ => ⟨rfl, rfl, rfl⟩) (by rfl)⟩

/-- Claim C7: `AlterOperator` writes only the fields explicitly marked
for update: altering `join` to NONE clears exactly the join estimator
and leaves `restrict` and every other stored field unchanged, a field
whose option was not supplied is never perturbed, and more generally a
successful alteration can change nothing but the two estimator
fields. -/
theorem C7_partial_update_frame (env : AlterEnv) (oprId : Oid) (op : PgOperator)
    (hop : env.opers oprId = some op) (how : env.operOwnerOk oprId = true) :
    AlterOperator env oprId [⟨"join", none⟩] = .ok { op with oprjoin := invalidOid } ∧
    (∀ options ap op', AlterOperator env oprId options = .ok op' →
      foldAlterOptions options {} = .ok ap →
      (ap.updateRestriction = false → op'.oprrest = op.oprrest) ∧
      (ap.updateJoin = false → op'.oprjoin = op.oprjoin)) ∧
    (∀ options op', AlterOperator env oprId options = .ok op' →
      op' = { op with oprrest := op'.oprrest, oprjoin := op'.oprjoin }) := by
  refine ⟨?_, ?_, ?_⟩
  · simp [AlterOperator, hop, foldAlterOptions, applyAlterOption, how, invalidOid, OidIsValid]
  · intro options ap op' hok hfold
    obtain ⟨op0, ap0, ro, jo, hop0, hfold0, hj, hr, heq⟩ :=
      AlterOperator_ok_cases env oprId options op' hok
    have hopeq : op0 = op := by
      rw [hop] at hop0
      exact (Option.some.inj hop0).symm
    subst hopeq
    have hapeq : ap0 = ap := Except.ok.inj (hfold0.symm.trans hfold)
    subst hapeq
    constructor
    · intro hu
      rw [heq]
      simp [hu]
    · intro hu
      rw [heq]
      simp [hu]
  · intro options op' hok
    obtain ⟨op0, ap0, ro, jo, hop0, hfold0, hj, hr, heq⟩ :=
      AlterOperator_ok_cases env oprId options op' hok
    have hopeq : op0 = op := by
      rw [hop] at hop0
      exact (Option.some.inj hop0).symm
    subst hopeq
    rw [heq]

/-- Witness for C7 on `alterFixture` at OID 3: clearing `join` clears
exactly that field; a run that only touched `restrict` leaves `join`
as stored; and the frame of a successful run fixes all other fields. -/
theorem C7_witness :
    AlterOperator alterFixture 3 [⟨"join", none⟩] =
      .ok { selfCommOp with oprjoin := invalidOid } ∧
    ({ selfCommOp with oprrest := invalidOid } : PgOperator).oprjoin =
      selfCommOp.oprjoin ∧
    ({ selfCommOp with oprrest := invalidOid } : PgOperator) =
      { selfCommOp with
        oprrest := ({ selfCommOp with oprrest := invalidOid } : PgOperator).oprrest,
        oprjoin := ({ selfCommOp with oprrest := invalidOid } : PgOperator).oprjoin } :=
  ⟨(C7_partial_update_frame alterFixture 3 selfCommOp (by rfl) (by rfl)).1,
   ((C7_partial_update_frame alterFixture 3 selfCommOp (by rfl) (by rfl)).2.1
      [⟨"restrict", none⟩] { restrictionName := [], updateRestriction := true }
      { selfCommOp with oprrest := invalidOid } (by rfl) (by rfl)).2 (by rfl),
   (C7_partial_update_frame alterFixture 3 selfCommOp (by rfl) (by rfl)).2.2
      [⟨"restrict", none⟩] { selfCommOp with oprrest := invalidOid } (by rfl)⟩

/-- Claim C9: supplying `restrict` or `join` with no value (NONE, i.e.
clear) skips the shape checks for that field: clearing `join` succeeds
on a stored non-binary operator and clearing `restrict` succeeds on a
stored operator with a non-boolean result type, with no
`InvalidDefinition` error. -/
theorem C9_clear_skips_shape_checks (env : AlterEnv) (oprId : Oid) (op : PgOperator)
    (hop : env.opers oprId = some op) (how : env.operOwnerOk oprId = true) :
    ((OidIsValid op.oprleft && OidIsValid op.oprright) = false →
      AlterOperator env oprId [⟨"join", none⟩] = .ok { op with oprjoin := invalidOid }) ∧
    (op.oprresult ≠ BOOLOID →
      AlterOperator env oprId [⟨"restrict", none⟩] =
        .ok { op with oprrest := invalidOid }) := by
  constructor
  · intro _
    simp [AlterOperator, hop, foldAlterOptions, applyAlterOption, how, invalidOid, OidIsValid]
  · intro _
    simp [AlterOperator, hop, foldAlterOptions, applyAlterOption, how, invalidOid, OidIsValid]

/-- Witness for C9 on `alterFixture`: clearing `join` on the stored
unary operator at OID 4 and clearing `restrict` on the stored
non-boolean operator at OID 5 both succeed. -/
theorem C9_witness :
    AlterOperator alterFixture 4 [⟨"join", none⟩] =
      .ok { unaryBoolOp with oprjoin := invalidOid } ∧
    AlterOperator alterFixture 5 [⟨"restrict", none⟩] =
      .ok { binNonBoolOp with oprrest := invalidOid } :=
  ⟨(C9_clear_skips_shape_checks alterFixture 4 unaryBoolOp (by rfl) (by rfl)).1 (by decide),
   (C9_clear_skips_shape_checks alterFixture 5 binNonBoolOp (by rfl) (by rfl)).2 (by decide)⟩
